import Mathlib

/-!
Verification of the tag-stream / versioned-attribute-schema engine of the
`ezdxf` DXF library sample: the AC1009 factory and table wrapper
(`src/ezdxf/ac1009/__init__.py`) and the BLOCK / ENDBLK entities
(`src/ezdxf/entities/block.py`), embedded shallowly in Lean.

Machinery that the sample imports but does not ship (`dxfentity.py`,
`tags.py`, `tableentries.py`) is modelled from the specification; each such
definition's doc comment starts with `Modelled from the spec:`.
-/

set_option autoImplicit false

namespace Ezdxf

/-- The payload of a DXF tag or of a loaded attribute: an integer, a text
string, or a 3-axis point (coordinates carried as opaque integer payloads;
no arithmetic is ever performed on them here). -/
inductive AttrValue where
  | int (n : Int)
  | str (s : String)
  | vec (x y z : Int)
deriving DecidableEq, Repr

/-- A single wire-format tag: a (group code, value) pair. -/
structure Tag where
  code : Nat
  value : AttrValue
deriving DecidableEq, Repr

/-- The reserved group code of subclass-marker tags (spec section 6). -/
def SUBCLASS_MARKER : Nat := 100

/-- Format revisions are a totally ordered token set with the legacy flat
revision DXF12 as the lowest element (spec section 6); embedded as `Nat`
with `DXF12 = 0`. -/
def DXF12 : Nat := 0

/-- Extended attribute type marker: `XType.any_point` marks a point-valued
attribute that emits one tag per coordinate axis. -/
inductive XType where
  | any_point
deriving DecidableEq, Repr

/-- Declarative description of one logical entity attribute, as written in
the `DXFAttr(...)` declarations of `block.py`: its first group code, its
extended type, and its optional default value. -/
structure DXFAttr where
  code : Nat
  xtype : Option XType := none
  default : Option AttrValue := none
deriving DecidableEq, Repr

/-- An ordered group of named attributes under a subclass marker name, as
written in the `DefSubclass(...)` declarations of `block.py`. -/
structure DefSubclass where
  name : String
  attribs : List (String × DXFAttr)
deriving DecidableEq, Repr

/- ------------------------------------------------------------------
AC1009 factory (`src/ezdxf/ac1009/__init__.py`)
------------------------------------------------------------------ -/

/-- The table-entry wrapper classes known to the AC1009 factory:
the two specialized wrappers registered in `TABLE_ENTRY_WRAPPERS` plus the
generic fallback (`tableentries.py`). -/
inductive WrapperClass where
  | Layer
  | DimStyle
  | GenericTableEntry
deriving DecidableEq, Repr

/-- `AC1009Factory.TABLE_ENTRY_WRAPPERS`: the mapping from table type name
to specialized wrapper class, exactly as written in the source. -/
def TABLE_ENTRY_WRAPPERS : List (String × WrapperClass) :=
  [("LAYER", WrapperClass.Layer), ("DIMSTYLE", WrapperClass.DimStyle)]

/-- A freshly constructed table entry: the wrapper class it was built
through, the handle and the attribs passed to `new`. -/
structure TableEntry where
  wrapper : WrapperClass
  handle : String
  attribs : List (String × AttrValue)
deriving DecidableEq, Repr

/-- Modelled from the spec: `class_.new(handle, attribs)` of
`tableentries.py` (not under src/) constructs a fresh table entry of the
given wrapper class carrying the handle and attribs. -/
def WrapperClass.new (c : WrapperClass) (handle : String)
    (attribs : List (String × AttrValue)) : TableEntry :=
  { wrapper := c, handle := handle, attribs := attribs }

/-- `AC1009Factory.new_table_entry(type_, handle, attribs)`: the source
looks up the literal key `'LAYER'` in `TABLE_ENTRY_WRAPPERS` (not the
`type_` argument), constructs through that class, and would raise
`ValueError('Unsupported table type: ...')` only on a `KeyError`. -/
def new_table_entry (type_ : String) (handle : String)
    (attribs : List (String × AttrValue)) : Except String TableEntry :=
  match TABLE_ENTRY_WRAPPERS.lookup "LAYER" with
  | some cls => Except.ok (cls.new handle attribs)
  | none => Except.error ("Unsupported table type: " ++ type_)

/-- A tag record wrapped into a wrapper class, as returned by
`AC1009Factory.table_entry_wrapper`. -/
structure WrappedTags where
  wrapper : WrapperClass
  tags : List Tag
deriving DecidableEq, Repr

/-- `AC1009Factory.table_entry_wrapper(tags)`: reads the first tag's value
as the type name, resolves it in `TABLE_ENTRY_WRAPPERS` with
`GenericTableEntry` as the `.get` fallback, and wraps the tags. `none`
models the `IndexError` Python would raise on an empty list. -/
def table_entry_wrapper (tags : List Tag) : Option WrappedTags :=
  match tags with
  | [] => none
  | t :: _ =>
    let wrapper := match t.value with
      | AttrValue.str s =>
          (TABLE_ENTRY_WRAPPERS.lookup s).getD WrapperClass.GenericTableEntry
      | _ => WrapperClass.GenericTableEntry
    some { wrapper := wrapper, tags := tags }

/- ------------------------------------------------------------------
TableWrapper (`src/ezdxf/ac1009/__init__.py`, spec section 4.4)
------------------------------------------------------------------ -/

/-- Modelled from the spec: the table-of-entries record that `TableWrapper`
wraps (the `Table` class is not under src/): a name, an optional header
tag segment, and the entry records. -/
structure Table where
  name : String
  table_header : Option (List Tag)
  entries : List (List Tag)
deriving DecidableEq, Repr

/-- The error taxonomy member raised by structural checks (spec section 7). -/
inductive TableError where
  | StructuralError
deriving DecidableEq, Repr

/-- Modelled from the spec: `Tags.update(code, value)` (the `Tags` class of
`tags.py` is not under src/) overwrites the value of the first tag carrying
the given group code and leaves every other tag unchanged; `none` when no
tag carries that code. -/
def updateTag : List Tag → Nat → AttrValue → Option (List Tag)
  | [], _, _ => none
  | t :: rest, code, v =>
    if t.code = code then some ({ t with value := v } :: rest)
    else (updateTag rest code v).map (fun r => t :: r)

/-- `TableWrapper.set_count(count)`: updates group code 70 of the wrapped
table's header. The header-absent and count-tag-absent failures surface as
the spec's `StructuralError`. -/
def set_count (table : Table) (count : Int) : Except TableError Table :=
  match table.table_header with
  | none => Except.error TableError.StructuralError
  | some hdr =>
    match updateTag hdr 70 (AttrValue.int count) with
    | none => Except.error TableError.StructuralError
    | some hdr2 => Except.ok { table with table_header := some hdr2 }

/- ------------------------------------------------------------------
BLOCK / ENDBLK schema declarations (`src/ezdxf/entities/block.py`)
------------------------------------------------------------------ -/

/-- `acdb_entity`: the `AcDbEntity` subclass declaration of `block.py`. -/
def acdb_entity : DefSubclass :=
  { name := "AcDbEntity"
    attribs := [("layer", { code := 8, default := some (AttrValue.str "0") })] }

/-- `acdb_block_begin`: the `AcDbBlockBegin` subclass declaration of
`block.py`, attributes in declared order. -/
def acdb_block_begin : DefSubclass :=
  { name := "AcDbBlockBegin"
    attribs :=
      [ ("name", { code := 2 })
      , ("name2", { code := 3 })
      , ("description", { code := 4, default := some (AttrValue.str "") })
      , ("flags", { code := 70, default := some (AttrValue.int 0) })
      , ("base_point",
          { code := 10, xtype := some XType.any_point
            default := some (AttrValue.vec 0 0 0) })
      , ("xref_path", { code := 1, default := some (AttrValue.str "") }) ] }

/-- `acdb_block_end`: the `AcDbBlockEnd` subclass declaration of
`block.py`; it declares no attributes. -/
def acdb_block_end : DefSubclass :=
  { name := "AcDbBlockEnd", attribs := [] }

/-- Modelled from the spec: the shared base sub-record of every entity
(`base_class` of `dxfentity.py` is not under src/); none of the attributes
the block claims touch live in it, so its attribute set is left empty. -/
def base_class : DefSubclass :=
  { name := "", attribs := [] }

/-- `Block.DXFATTRIBS = DXFAttributes(base_class, acdb_entity,
acdb_block_begin)`: the ordered subclass schema of BLOCK. -/
def Block.DXFATTRIBS : List DefSubclass :=
  [base_class, acdb_entity, acdb_block_begin]

/-- `EndBlk.DXFATTRIBS = DXFAttributes(base_class, acdb_entity,
acdb_block_end)`: the ordered subclass schema of ENDBLK. -/
def EndBlk.DXFATTRIBS : List DefSubclass :=
  [base_class, acdb_entity, acdb_block_end]

/- ------------------------------------------------------------------
Namespace, load and export machinery (`dxfentity.py`, spec 4.1 / 4.2)
------------------------------------------------------------------ -/

/-- The loaded, mutable attribute bag of one entity instance: a mapping
from attribute name to stored value. -/
structure DXFNamespace where
  values : List (String × AttrValue)
deriving DecidableEq, Repr

/-- The stored value of a named attribute, when present. -/
def DXFNamespace.get (ns : DXFNamespace) (name : String) : Option AttrValue :=
  ns.values.lookup name

/-- The attribute schema registered under a name, searched through the
entity's subclasses in declared order. -/
def findAttr : List DefSubclass → String → Option DXFAttr
  | [], _ => none
  | sc :: rest, name =>
    match sc.attribs.lookup name with
    | some a => some a
    | none => findAttr rest name

/-- The wire tags one attribute value emits: a point-typed attribute emits
one tag per axis at codes code, code+10, code+20 in axis order; any other
attribute emits a single tag at its code. -/
def writeTags (attr : DXFAttr) (v : AttrValue) : List Tag :=
  match attr.xtype, v with
  | some XType.any_point, AttrValue.vec x y z =>
      [ { code := attr.code, value := AttrValue.int x }
      , { code := attr.code + 10, value := AttrValue.int y }
      , { code := attr.code + 20, value := AttrValue.int z } ]
  | _, w => [ { code := attr.code, value := w } ]

/-- Modelled from the spec: `DXFNamespace.export_dxf_attribute`
(`dxfentity.py` is not under src/) emits one attribute using the
namespace's stored value or, failing that, the schema default
(spec section 4.2); an attribute with neither emits nothing. -/
def export_dxf_attribute (schema : List DefSubclass) (ns : DXFNamespace)
    (name : String) : List Tag :=
  match findAttr schema name with
  | none => []
  | some attr =>
    match (ns.get name).orElse (fun _ => attr.default) with
    | none => []
    | some v => writeTags attr v

/-- Modelled from the spec: `DXFNamespace.export_dxf_attribs`
(`dxfentity.py` is not under src/) emits the named attributes one after the
other, in the order of the given name list. -/
def export_dxf_attribs (schema : List DefSubclass) (ns : DXFNamespace) :
    List String → List Tag
  | [] => []
  | n :: rest =>
      export_dxf_attribute schema ns n ++ export_dxf_attribs schema ns rest

/-- Modelled from the spec: the `SubclassProcessor` of `dxfentity.py` (not
under src/) holds the entity's subclass schema and the raw tag sequence
already partitioned at subclass-marker tags into named segments
(spec section 4.1 step 1). -/
structure SubclassProcessor where
  schema : List DefSubclass
  segments : List (String × List Tag)
deriving DecidableEq, Repr

/-- Modelled from the spec: loading one attribute from a segment
(spec section 4.1 step 3): the first tag whose code matches the
attribute's first code wins; a point attribute additionally collects the
first matches at codes code+10 and code+20 for the remaining axes; no
match leaves the namespace unchanged. -/
def loadAttr (seg : List Tag) (ns : DXFNamespace) (name : String)
    (attr : DXFAttr) : DXFNamespace :=
  match seg.find? (fun t => t.code == attr.code) with
  | none => ns
  | some t =>
    let v := match attr.xtype, t.value with
      | some XType.any_point, AttrValue.int x =>
        let y := match seg.find? (fun u => u.code == attr.code + 10) with
          | some u => match u.value with | AttrValue.int m => m | _ => 0
          | none => 0
        let z := match seg.find? (fun u => u.code == attr.code + 20) with
          | some u => match u.value with | AttrValue.int m => m | _ => 0
          | none => 0
        AttrValue.vec x y z
      | _, w => w
    { values := ns.values ++ [(name, v)] }

/-- Modelled from the spec: `SubclassProcessor.load_dxfattribs_into_namespace`
(`dxfentity.py` is not under src/) locates the named subclass's schema and
tag segment and loads each declared attribute from it; an absent marker
segment leaves every attribute absent rather than failing
(spec section 4.1 step 2). -/
def SubclassProcessor.load_dxfattribs_into_namespace (p : SubclassProcessor)
    (ns : DXFNamespace) (subclassName : String) : DXFNamespace :=
  match p.schema.find? (fun sc => sc.name == subclassName) with
  | none => ns
  | some sc =>
    match p.segments.lookup subclassName with
    | none => ns
    | some seg => sc.attribs.foldl (fun n kv => loadAttr seg n kv.1 kv.2) ns

/-- Modelled from the spec: `DXFEntity.load_dxf_attribs` (`dxfentity.py` is
not under src/) is the default-namespace construction entry point: with no
processor it returns the fresh empty namespace, and with a processor it
loads only the distinguished base segment (the block subclasses are loaded
by the subclass overrides). -/
def DXFEntity.load_dxf_attribs (processor : Option SubclassProcessor) :
    DXFNamespace :=
  match processor with
  | none => { values := [] }
  | some p => p.load_dxfattribs_into_namespace { values := [] } base_class.name

/-- `Block.load_dxf_attribs(processor)`: calls the base-class load, returns
its result unchanged when the processor is absent, and otherwise loads the
`AcDbEntity` and `AcDbBlockBegin` subclasses into it. -/
def Block.load_dxf_attribs (processor : Option SubclassProcessor) :
    DXFNamespace :=
  let dxf := DXFEntity.load_dxf_attribs processor
  match processor with
  | none => dxf
  | some p =>
    let d1 := p.load_dxfattribs_into_namespace dxf acdb_entity.name
    p.load_dxfattribs_into_namespace d1 acdb_block_begin.name

/-- `EndBlk.load_dxf_attribs(processor)`: calls the base-class load, returns
its result unchanged when the processor is absent, and otherwise loads the
`AcDbEntity` and `AcDbBlockEnd` subclasses into it. -/
def EndBlk.load_dxf_attribs (processor : Option SubclassProcessor) :
    DXFNamespace :=
  let dxf := DXFEntity.load_dxf_attribs processor
  match processor with
  | none => dxf
  | some p =>
    let d1 := p.load_dxfattribs_into_namespace dxf acdb_entity.name
    p.load_dxfattribs_into_namespace d1 acdb_block_end.name

/-- `Block.export_entity(tagwriter)`: the entity-specific tag output of a
BLOCK at target revision `ver` (the tagwriter is embedded as the returned
tag list; the base-class export surrounding this body is done by the
parent class and is not part of it). For revisions above DXF12 the
subclass markers are written; the attributes are emitted in the order the
source spells out: layer, then name, flags, base_point, name2, xref_path,
then description. -/
def Block.export_entity (ns : DXFNamespace) (ver : Nat) : List Tag :=
  (if DXF12 < ver
    then [{ code := SUBCLASS_MARKER, value := AttrValue.str acdb_entity.name }]
    else [])
  ++ export_dxf_attribute Block.DXFATTRIBS ns "layer"
  ++ (if DXF12 < ver
    then [{ code := SUBCLASS_MARKER
            value := AttrValue.str acdb_block_begin.name }]
    else [])
  ++ export_dxf_attribs Block.DXFATTRIBS ns
      ["name", "flags", "base_point", "name2", "xref_path"]
  ++ export_dxf_attribute Block.DXFATTRIBS ns "description"

/-- `EndBlk.export_entity(tagwriter)`: the entity-specific tag output of an
ENDBLK at target revision `ver`: the layer attribute, with the
`AcDbEntity` and `AcDbBlockEnd` subclass markers written for revisions
above DXF12; `AcDbBlockEnd` declares no attributes so nothing follows its
marker. -/
def EndBlk.export_entity (ns : DXFNamespace) (ver : Nat) : List Tag :=
  (if DXF12 < ver
    then [{ code := SUBCLASS_MARKER, value := AttrValue.str acdb_entity.name }]
    else [])
  ++ export_dxf_attribute EndBlk.DXFATTRIBS ns "layer"
  ++ (if DXF12 < ver
    then [{ code := SUBCLASS_MARKER
            value := AttrValue.str acdb_block_end.name }]
    else [])

/-- The export the claim C3 asserts, following the claim's words rather
than the source: each subclass's attributes emitted in schema-declared
order (for comparison with `Block.export_entity`, which follows the
source's spelled-out order). -/
def Block.export_entity_declared_order (ns : DXFNamespace) (ver : Nat) :
    List Tag :=
  (if DXF12 < ver
    then [{ code := SUBCLASS_MARKER, value := AttrValue.str acdb_entity.name }]
    else [])
  ++ export_dxf_attribs Block.DXFATTRIBS ns (acdb_entity.attribs.map Prod.fst)
  ++ (if DXF12 < ver
    then [{ code := SUBCLASS_MARKER
            value := AttrValue.str acdb_block_begin.name }]
    else [])
  ++ export_dxf_attribs Block.DXFATTRIBS ns
      (acdb_block_begin.attribs.map Prod.fst)

/- ------------------------------------------------------------------
Helper lemmas
------------------------------------------------------------------ -/

/-- Every tag an attribute emission produces carries one of the
attribute's axis codes. -/
theorem code_mem_writeTags (attr : DXFAttr) (v : AttrValue) (t : Tag)
    (ht : t ∈ writeTags attr v) :
    t.code = attr.code ∨ t.code = attr.code + 10 ∨ t.code = attr.code + 20 := by
  rcases attr with ⟨c, xt, d⟩
  rcases xt with _ | xt
  · rcases v with n | s | ⟨x, y, z⟩ <;> simp [writeTags] at ht <;> simp [ht]
  · cases xt
    rcases v with n | s | ⟨x, y, z⟩ <;> simp [writeTags] at ht
    · simp [ht]
    · simp [ht]
    · rcases ht with h | h | h <;> simp [h]

/-- A tag emitted for an attribute whose axis codes all differ from `c`
never carries code `c`. -/
theorem export_attribute_code_ne (schema : List DefSubclass)
    (ns : DXFNamespace) (name : String) (attr : DXFAttr) (c : Nat)
    (hf : findAttr schema name = some attr)
    (h1 : attr.code ≠ c) (h2 : attr.code + 10 ≠ c) (h3 : attr.code + 20 ≠ c)
    (t : Tag) (ht : t ∈ export_dxf_attribute schema ns name) : t.code ≠ c := by
  have he : export_dxf_attribute schema ns name =
      (match (ns.get name).orElse (fun _ => attr.default) with
        | none => []
        | some v => writeTags attr v) := by
    unfold export_dxf_attribute
    rw [hf]
  rw [he] at ht
  cases hv : (ns.get name).orElse (fun _ => attr.default) with
  | none => rw [hv] at ht; simp at ht
  | some v =>
    rw [hv] at ht
    rcases code_mem_writeTags attr v t ht with h | h | h <;> rw [h] <;>
      assumption

/-- `updateTag` overwrites exactly the first tag carrying the requested
code and leaves every other tag in place. -/
theorem updateTag_eq (pre : List Tag) (tag : Tag) (post : List Tag)
    (code : Nat) (v : AttrValue)
    (htag : tag.code = code) (hpre : ∀ u ∈ pre, u.code ≠ code) :
    updateTag (pre ++ tag :: post) code v =
      some (pre ++ { code := code, value := v } :: post) := by
  induction pre with
  | nil => rcases tag with ⟨c, w⟩; simp_all [updateTag]
  | cons u rest ih =>
    have hu : u.code ≠ code := hpre u (List.mem_cons_self u rest)
    have hrest : ∀ w ∈ rest, w.code ≠ code :=
      fun w hw => hpre w (List.mem_cons_of_mem u hw)
    simp [updateTag, hu, ih hrest]

/-- `updateTag` fails exactly when no tag carries the requested code. -/
theorem updateTag_none (tags : List Tag) (code : Nat) (v : AttrValue)
    (h : ∀ u ∈ tags, u.code ≠ code) : updateTag tags code v = none := by
  induction tags with
  | nil => rfl
  | cons u rest ih =>
    have hu : u.code ≠ code := h u (List.mem_cons_self u rest)
    have hrest : ∀ w ∈ rest, w.code ≠ code :=
      fun w hw => h w (List.mem_cons_of_mem u hw)
    simp [updateTag, hu, ih hrest]

/- ------------------------------------------------------------------
Claim theorems
------------------------------------------------------------------ -/

/-- C1: the claim says `new_table_entry` dispatches on the `type_`
argument through `TABLE_ENTRY_WRAPPERS`; the code instead looks up the
literal key `'LAYER'`, so for `type_ = 'DIMSTYLE'` the entry is
constructed with the `Layer` wrapper even though `DimStyle` is the wrapper
registered for `'DIMSTYLE'`. -/
theorem C1_new_table_entry_ignores_type :
    new_table_entry "DIMSTYLE" "10" [] =
      Except.ok { wrapper := WrapperClass.Layer, handle := "10", attribs := [] } ∧
    TABLE_ENTRY_WRAPPERS.lookup "DIMSTYLE" = some WrapperClass.DimStyle ∧
    WrapperClass.Layer ≠ WrapperClass.DimStyle := by
  refine ⟨rfl, rfl, ?_⟩
  decide

/-- C2: the claim says `new_table_entry` raises 'Unsupported table type'
exactly for unregistered type names; because the code looks up the literal
key `'LAYER'` (always registered), it succeeds for every `type_`, so for
the unregistered name `'VPORT'` it returns a Layer-wrapped entry instead
of an error. -/
theorem C2_new_table_entry_never_raises :
    (∀ (type_ handle : String) (attribs : List (String × AttrValue)),
      new_table_entry type_ handle attribs =
        Except.ok (WrapperClass.Layer.new handle attribs)) ∧
    TABLE_ENTRY_WRAPPERS.lookup "VPORT" = none := by
  exact ⟨fun _ _ _ => rfl, rfl⟩

/-- C4: for every non-empty tag list whose first tag's value is a type
name not registered in `TABLE_ENTRY_WRAPPERS`, `table_entry_wrapper`
returns a `GenericTableEntry` wrapper around the tags and never raises. -/
theorem C4_generic_fallback (t : Tag) (rest : List Tag) (s : String)
    (hv : t.value = AttrValue.str s)
    (hreg : TABLE_ENTRY_WRAPPERS.lookup s = none) :
    table_entry_wrapper (t :: rest) =
      some { wrapper := WrapperClass.GenericTableEntry, tags := t :: rest } := by
  simp [table_entry_wrapper, hv, hreg]

/-- C4 witness: the unregistered type name 'STYLE' wraps generically. -/
theorem C4_generic_fallback_witness :
    table_entry_wrapper [{ code := 0, value := AttrValue.str "STYLE" }] =
      some { wrapper := WrapperClass.GenericTableEntry
             tags := [{ code := 0, value := AttrValue.str "STYLE" }] } :=
  C4_generic_fallback { code := 0, value := AttrValue.str "STYLE" } [] "STYLE"
    rfl rfl

/-- C7: on a table whose header contains a count tag (group code 70),
`set_count n` overwrites that tag's value to `n` and changes nothing else
(the result is the input table with only the first code-70 header tag's
value replaced), and running `set_count n` again returns the same table
unchanged (idempotence). -/
theorem C7_set_count_overwrite_idempotent (table : Table) (n : Int)
    (pre : List Tag) (tag : Tag) (post : List Tag)
    (hhdr : table.table_header = some (pre ++ tag :: post))
    (htag : tag.code = 70) (hpre : ∀ u ∈ pre, u.code ≠ 70) :
    set_count table n =
      Except.ok
        { table with
          table_header := some (pre ++ { code := 70, value := AttrValue.int n } :: post) } ∧
    set_count
      { table with
        table_header := some (pre ++ { code := 70, value := AttrValue.int n } :: post) } n =
      Except.ok
        { table with
          table_header := some (pre ++ { code := 70, value := AttrValue.int n } :: post) } := by
  constructor
  · simp [set_count, hhdr, updateTag_eq pre tag post 70 (AttrValue.int n) htag hpre]
  · simp [set_count,
      updateTag_eq pre { code := 70, value := AttrValue.int n } post 70
        (AttrValue.int n) rfl hpre]

/-- C7 witness: a concrete layer table with count 3 updated to 5, twice. -/
theorem C7_set_count_witness :
    set_count
      { name := "LAYERS"
        table_header := some [ { code := 2, value := AttrValue.str "LAYER" }
                             , { code := 70, value := AttrValue.int 3 } ]
        entries := [] } 5 =
      Except.ok
        { name := "LAYERS"
          table_header := some [ { code := 2, value := AttrValue.str "LAYER" }
                               , { code := 70, value := AttrValue.int 5 } ]
          entries := [] } ∧
    set_count
      { name := "LAYERS"
        table_header := some [ { code := 2, value := AttrValue.str "LAYER" }
                             , { code := 70, value := AttrValue.int 5 } ]
        entries := [] } 5 =
      Except.ok
        { name := "LAYERS"
          table_header := some [ { code := 2, value := AttrValue.str "LAYER" }
                               , { code := 70, value := AttrValue.int 5 } ]
          entries := [] } :=
  C7_set_count_overwrite_idempotent
    { name := "LAYERS"
      table_header := some [ { code := 2, value := AttrValue.str "LAYER" }
                           , { code := 70, value := AttrValue.int 3 } ]
      entries := [] }
    5 [{ code := 2, value := AttrValue.str "LAYER" }]
    { code := 70, value := AttrValue.int 3 } [] rfl rfl (by decide)

/-- C8: `set_count` raises `StructuralError` on a wrapped table whose
record lacks a header segment, and on one whose header lacks a count tag
(group code 70); it never silently patches the record. -/
theorem C8_set_count_structural_error (table : Table) (n : Int) :
    (table.table_header = none →
      set_count table n = Except.error TableError.StructuralError) ∧
    (∀ hdr, table.table_header = some hdr → (∀ u ∈ hdr, u.code ≠ 70) →
      set_count table n = Except.error TableError.StructuralError) := by
  constructor
  · intro h; simp [set_count, h]
  · intro hdr h hno
    simp [set_count, h, updateTag_none hdr 70 (AttrValue.int n) hno]

/-- C8 witness: a header-less table and a header without a count tag both
fail with StructuralError. -/
theorem C8_set_count_witness :
    set_count { name := "T", table_header := none, entries := [] } 5 =
      Except.error TableError.StructuralError ∧
    set_count
      { name := "T"
        table_header := some [{ code := 2, value := AttrValue.str "LAYER" }]
        entries := [] } 5 =
      Except.error TableError.StructuralError :=
  ⟨(C8_set_count_structural_error
      { name := "T", table_header := none, entries := [] } 5).1 rfl,
   (C8_set_count_structural_error
      { name := "T"
        table_header := some [{ code := 2, value := AttrValue.str "LAYER" }]
        entries := [] } 5).2 _ rfl (by decide)⟩

/-- C3 counterexample: at a fully populated namespace and a revision above
DXF12, `Block.export_entity` does not emit the `AcDbBlockBegin` attributes
in the schema-declared order (`name, name2, description, flags,
base_point, xref_path`): the source spells out `name, flags, base_point,
name2, xref_path` and emits `description` last, so the output differs from
the declared-order emission the claim asserts. -/
theorem C3_declared_order_counterexample :
    Block.export_entity
      { values := [ ("layer", AttrValue.str "0")
                  , ("name", AttrValue.str "B")
                  , ("name2", AttrValue.str "B")
                  , ("description", AttrValue.str "d")
                  , ("flags", AttrValue.int 0)
                  , ("base_point", AttrValue.vec 0 0 0)
                  , ("xref_path", AttrValue.str "") ] } 1 ≠
    Block.export_entity_declared_order
      { values := [ ("layer", AttrValue.str "0")
                  , ("name", AttrValue.str "B")
                  , ("name2", AttrValue.str "B")
                  , ("description", AttrValue.str "d")
                  , ("flags", AttrValue.int 0)
                  , ("base_point", AttrValue.vec 0 0 0)
                  , ("xref_path", AttrValue.str "") ] } 1 ∧
    acdb_block_begin.attribs.map Prod.fst =
      ["name", "name2", "description", "flags", "base_point", "xref_path"] := by
  constructor
  · decide
  · rfl

/-- C3 amended: for every Block namespace and every revision above DXF12,
`export_entity` emits the `AcDbEntity` attributes in declared order
(`layer` alone), but the `AcDbBlockBegin` attributes in the fixed source
order `name, flags, base_point, name2, xref_path, description` rather than
the schema-declared order. -/
theorem C3_export_order_amended (ns : DXFNamespace) (ver : Nat)
    (h : DXF12 < ver) :
    Block.export_entity ns ver =
      [{ code := SUBCLASS_MARKER, value := AttrValue.str "AcDbEntity" }]
      ++ export_dxf_attribute Block.DXFATTRIBS ns "layer"
      ++ [{ code := SUBCLASS_MARKER, value := AttrValue.str "AcDbBlockBegin" }]
      ++ export_dxf_attribute Block.DXFATTRIBS ns "name"
      ++ export_dxf_attribute Block.DXFATTRIBS ns "flags"
      ++ export_dxf_attribute Block.DXFATTRIBS ns "base_point"
      ++ export_dxf_attribute Block.DXFATTRIBS ns "name2"
      ++ export_dxf_attribute Block.DXFATTRIBS ns "xref_path"
      ++ export_dxf_attribute Block.DXFATTRIBS ns "description" := by
  simp [Block.export_entity, export_dxf_attribs, h, acdb_entity,
    acdb_block_begin, List.append_assoc]

/-- C3 amended witness: the amended order at the empty namespace and
revision 1. -/
theorem C3_export_order_amended_witness :
    Block.export_entity { values := [] } 1 =
      [{ code := SUBCLASS_MARKER, value := AttrValue.str "AcDbEntity" }]
      ++ export_dxf_attribute Block.DXFATTRIBS { values := [] } "layer"
      ++ [{ code := SUBCLASS_MARKER, value := AttrValue.str "AcDbBlockBegin" }]
      ++ export_dxf_attribute Block.DXFATTRIBS { values := [] } "name"
      ++ export_dxf_attribute Block.DXFATTRIBS { values := [] } "flags"
      ++ export_dxf_attribute Block.DXFATTRIBS { values := [] } "base_point"
      ++ export_dxf_attribute Block.DXFATTRIBS { values := [] } "name2"
      ++ export_dxf_attribute Block.DXFATTRIBS { values := [] } "xref_path"
      ++ export_dxf_attribute Block.DXFATTRIBS { values := [] } "description" :=
  C3_export_order_amended { values := [] } 1 (by decide)

/-- C5: at the legacy revision DXF12 neither `Block.export_entity` nor
`EndBlk.export_entity` emits any subclass-marker tag (group code 100),
and at every revision above DXF12 each subclass's marker tag is emitted
immediately before that subclass's attributes. -/
theorem C5_subclass_markers (ns : DXFNamespace) (ver : Nat)
    (h : DXF12 < ver) :
    (∀ t ∈ Block.export_entity ns DXF12, t.code ≠ SUBCLASS_MARKER) ∧
    (∀ t ∈ EndBlk.export_entity ns DXF12, t.code ≠ SUBCLASS_MARKER) ∧
    Block.export_entity ns ver =
      [{ code := SUBCLASS_MARKER, value := AttrValue.str "AcDbEntity" }]
      ++ export_dxf_attribute Block.DXFATTRIBS ns "layer"
      ++ [{ code := SUBCLASS_MARKER, value := AttrValue.str "AcDbBlockBegin" }]
      ++ export_dxf_attribs Block.DXFATTRIBS ns
          ["name", "flags", "base_point", "name2", "xref_path"]
      ++ export_dxf_attribute Block.DXFATTRIBS ns "description" ∧
    EndBlk.export_entity ns ver =
      [{ code := SUBCLASS_MARKER, value := AttrValue.str "AcDbEntity" }]
      ++ export_dxf_attribute EndBlk.DXFATTRIBS ns "layer"
      ++ [{ code := SUBCLASS_MARKER, value := AttrValue.str "AcDbBlockEnd" }] := by
  refine ⟨?_, ?_, ?_, ?_⟩
  · intro t ht
    simp [Block.export_entity, export_dxf_attribs, DXF12] at ht
    rcases ht with h1 | h1 | h1 | h1 | h1 | h1 | h1
    · exact export_attribute_code_ne Block.DXFATTRIBS ns "layer"
        { code := 8, default := some (AttrValue.str "0") } SUBCLASS_MARKER
        (by decide) (by decide) (by decide) (by decide) t h1
    · exact export_attribute_code_ne Block.DXFATTRIBS ns "name"
        { code := 2 } SUBCLASS_MARKER
        (by decide) (by decide) (by decide) (by decide) t h1
    · exact export_attribute_code_ne Block.DXFATTRIBS ns "flags"
        { code := 70, default := some (AttrValue.int 0) } SUBCLASS_MARKER
        (by decide) (by decide) (by decide) (by decide) t h1
    · exact export_attribute_code_ne Block.DXFATTRIBS ns "base_point"
        { code := 10, xtype := some XType.any_point
          default := some (AttrValue.vec 0 0 0) } SUBCLASS_MARKER
        (by decide) (by decide) (by decide) (by decide) t h1
    · exact export_attribute_code_ne Block.DXFATTRIBS ns "name2"
        { code := 3 } SUBCLASS_MARKER
        (by decide) (by decide) (by decide) (by decide) t h1
    · exact export_attribute_code_ne Block.DXFATTRIBS ns "xref_path"
        { code := 1, default := some (AttrValue.str "") } SUBCLASS_MARKER
        (by decide) (by decide) (by decide) (by decide) t h1
    · exact export_attribute_code_ne Block.DXFATTRIBS ns "description"
        { code := 4, default := some (AttrValue.str "") } SUBCLASS_MARKER
        (by decide) (by decide) (by decide) (by decide) t h1
  · intro t ht
    simp [EndBlk.export_entity, DXF12] at ht
    exact export_attribute_code_ne EndBlk.DXFATTRIBS ns "layer"
      { code := 8, default := some (AttrValue.str "0") } SUBCLASS_MARKER
      (by decide) (by decide) (by decide) (by decide) t ht
  · simp [Block.export_entity, h, acdb_entity, acdb_block_begin,
      List.append_assoc]
  · simp [EndBlk.export_entity, h, acdb_entity, acdb_block_end,
      List.append_assoc]

/-- C5 witness: the marker layout at the empty namespace and revision 1. -/
theorem C5_subclass_markers_witness :
    (∀ t ∈ Block.export_entity { values := [] } DXF12,
      t.code ≠ SUBCLASS_MARKER) ∧
    (∀ t ∈ EndBlk.export_entity { values := [] } DXF12,
      t.code ≠ SUBCLASS_MARKER) ∧
    Block.export_entity { values := [] } 1 =
      [{ code := SUBCLASS_MARKER, value := AttrValue.str "AcDbEntity" }]
      ++ export_dxf_attribute Block.DXFATTRIBS { values := [] } "layer"
      ++ [{ code := SUBCLASS_MARKER, value := AttrValue.str "AcDbBlockBegin" }]
      ++ export_dxf_attribs Block.DXFATTRIBS { values := [] }
          ["name", "flags", "base_point", "name2", "xref_path"]
      ++ export_dxf_attribute Block.DXFATTRIBS { values := [] } "description" ∧
    EndBlk.export_entity { values := [] } 1 =
      [{ code := SUBCLASS_MARKER, value := AttrValue.str "AcDbEntity" }]
      ++ export_dxf_attribute EndBlk.DXFATTRIBS { values := [] } "layer"
      ++ [{ code := SUBCLASS_MARKER, value := AttrValue.str "AcDbBlockEnd" }] :=
  C5_subclass_markers { values := [] } 1 (by decide)

/-- C6: whenever the namespace's base_point equals the schema default
(0, 0, 0) — stored explicitly or absent and so falling back to the
default — `Block.export_entity` still emits the base_point attribute as
three tags, one per axis at codes 10, 20, 30 in axis order, at every
revision; the point is never omitted or partially emitted. -/
theorem C6_base_point_default_emitted (ns : DXFNamespace) (ver : Nat)
    (h : ns.get "base_point" = some (AttrValue.vec 0 0 0) ∨
         ns.get "base_point" = none) :
    ∃ pre post, Block.export_entity ns ver =
      pre ++ [ { code := 10, value := AttrValue.int 0 }
             , { code := 20, value := AttrValue.int 0 }
             , { code := 30, value := AttrValue.int 0 } ] ++ post := by
  have hbp : export_dxf_attribute Block.DXFATTRIBS ns "base_point" =
      [ { code := 10, value := AttrValue.int 0 }
      , { code := 20, value := AttrValue.int 0 }
      , { code := 30, value := AttrValue.int 0 } ] := by
    rcases h with h | h <;>
      · simp [export_dxf_attribute, h, findAttr, Block.DXFATTRIBS, base_class,
          acdb_entity, acdb_block_begin, writeTags]
        decide
  refine ⟨(if DXF12 < ver
      then [{ code := SUBCLASS_MARKER, value := AttrValue.str "AcDbEntity" }]
      else [])
    ++ export_dxf_attribute Block.DXFATTRIBS ns "layer"
    ++ (if DXF12 < ver
      then [{ code := SUBCLASS_MARKER, value := AttrValue.str "AcDbBlockBegin" }]
      else [])
    ++ export_dxf_attribute Block.DXFATTRIBS ns "name"
    ++ export_dxf_attribute Block.DXFATTRIBS ns "flags",
    export_dxf_attribute Block.DXFATTRIBS ns "name2"
    ++ export_dxf_attribute Block.DXFATTRIBS ns "xref_path"
    ++ export_dxf_attribute Block.DXFATTRIBS ns "description", ?_⟩
  simp [Block.export_entity, export_dxf_attribs, hbp, acdb_entity,
    acdb_block_begin, List.append_assoc]

/-- C6 witness: the empty namespace (base_point absent, so the default
applies) at revision 0. -/
theorem C6_base_point_witness :
    ∃ pre post, Block.export_entity { values := [] } 0 =
      pre ++ [ { code := 10, value := AttrValue.int 0 }
             , { code := 20, value := AttrValue.int 0 }
             , { code := 30, value := AttrValue.int 0 } ] ++ post :=
  C6_base_point_default_emitted { values := [] } 0 (Or.inr rfl)

/-- C9: for both Block and EndBlk, `load_dxf_attribs` with no processor
returns the base-class namespace unchanged, and no subclass attribute is
loaded: the resulting namespace stores no value for any attribute name. -/
theorem C9_load_without_processor :
    Block.load_dxf_attribs none = DXFEntity.load_dxf_attribs none ∧
    EndBlk.load_dxf_attribs none = DXFEntity.load_dxf_attribs none ∧
    ∀ name : String,
      (Block.load_dxf_attribs none).get name = none ∧
      (EndBlk.load_dxf_attribs none).get name = none :=
  ⟨rfl, rfl, fun _ => ⟨rfl, rfl⟩⟩

/-- C10: for every EndBlk namespace at every revision above DXF12, the
`AcDbBlockEnd` subclass-marker tag is the last tag emitted — the
`AcDbBlockEnd` sub-record on the wire is the marker tag alone, and the
subclass declares no attributes. -/
theorem C10_endblk_marker_only (ns : DXFNamespace) (ver : Nat)
    (h : DXF12 < ver) :
    EndBlk.export_entity ns ver =
      ({ code := SUBCLASS_MARKER, value := AttrValue.str "AcDbEntity" } ::
        export_dxf_attribute EndBlk.DXFATTRIBS ns "layer")
      ++ [{ code := SUBCLASS_MARKER, value := AttrValue.str "AcDbBlockEnd" }] ∧
    acdb_block_end.attribs = [] := by
  constructor
  · simp [EndBlk.export_entity, h, acdb_entity, acdb_block_end]
  · rfl

/-- C10 witness: the empty namespace at revision 1. -/
theorem C10_endblk_marker_only_witness :
    EndBlk.export_entity { values := [] } 1 =
      ({ code := SUBCLASS_MARKER, value := AttrValue.str "AcDbEntity" } ::
        export_dxf_attribute EndBlk.DXFATTRIBS { values := [] } "layer")
      ++ [{ code := SUBCLASS_MARKER, value := AttrValue.str "AcDbBlockEnd" }] ∧
    acdb_block_end.attribs = [] :=
  C10_endblk_marker_only { values := [] } 1 (by decide)

end Ezdxf
